import Mathlib

/-!
Shallow embedding of the banner-upload API handler
(src/pages/api/banner/upload.ts) of the BeantownBash dashboard.

The handler is modelled as a pure function from an environment (the state
of the external collaborators: config store, session resolver, record
store, filesystem, id generator) and a request to an outcome (the list of
response sends attempted in order, the final record-store and filesystem
state, and bookkeeping flags).

Node event-loop ordering is modelled faithfully: the code registers the
`data` listener, pipes, and then immediately checks the `successful` flag,
so the 200 response is sent before any body chunk can have been processed;
the mid-stream 413 is a later, second send attempt on the same response.
-/

/-- `maxSize` from the source: the 5 MB size ceiling. -/
def maxSize : Nat := 5000000

/-- The authenticated identity returned by the session resolver:
`session.user.email` and `session.user.projectId`. -/
structure Identity where
  email : String
  projectId : String
deriving DecidableEq

/-- A `BannerImage` record of the record store: id, url derived from the
id, and the owning project's id. -/
structure BannerImage where
  id : String
  url : String
  projectId : String
deriving DecidableEq

/-- The external operations of the pipeline, in execution order; each can
throw (be rejected), which the handler's try/catch turns into a 500. -/
inductive Stage
  | configLookup
  | sessionResolve
  | bannerLookup
  | deleteRecord
  | createRecord
  | mkdirUploads
  | openStream
deriving DecidableEq

/-- An incoming HTTP request: method, the declared `content-length` header
(`none` when absent), and the sizes of the body chunks in arrival order. -/
structure Request where
  method : String
  contentLength : Option Nat
  chunks : List Nat
deriving DecidableEq

/-- The state of the external collaborators when the request arrives:
the `forbidEditing` config value (`none` when the key is absent), the
session resolver's answer, the record store's banner records, the
filesystem's existing paths, the id the cuid2 generator will produce
next, which external operation (if any) throws, and whether the two
best-effort `unlink` calls succeed. -/
structure Env where
  forbidEditing : Option Bool
  session : Option Identity
  db : List BannerImage
  files : List String
  freshId : String
  failAt : Option Stage
  oldUnlinkOk : Bool
  midUnlinkOk : Bool
deriving DecidableEq

/-- A response body: `{ e: string }` on failure, `{ url: string }` on
success. -/
inductive RespBody
  | err (e : String)
  | url (u : String)
deriving DecidableEq

/-- One `res.status(...).json(...)` call: the status code and the body. -/
structure Sent where
  status : Nat
  body : RespBody
deriving DecidableEq

/-- The observable outcome of one handler run. `sent` lists every send
attempt in order (only the first reaches the client); `allow` is the
`Allow` header if set; `db` and `files` are the final record-store and
filesystem states; `destroyed` records `req.destroy()`; `caught` records
that the top-level catch ran; `sessionConsulted` / `bannerLookupDone`
record that the session resolver / the record-store banner lookup were
invoked; `oldFileDeleteAttempted` records the best-effort unlink of the
superseded banner file. -/
structure Outcome where
  sent : List Sent
  allow : Option String
  db : List BannerImage
  files : List String
  destroyed : Bool
  caught : Bool
  sessionConsulted : Bool
  bannerLookupDone : Bool
  oldFileDeleteAttempted : Bool
deriving DecidableEq

/-- The path the handler writes an upload with the given id to:
`./data/uploads/{id}.jpg`. -/
def uploadPath (id : String) : String :=
  "./data/uploads/" ++ id ++ ".jpg"

/-- The URL derived from an upload id: `/api/res/images/{id}`. -/
def imageUrl (id : String) : String :=
  "/api/res/images/" ++ id

/-- The status the client observes: the status of the first send. -/
def clientStatus (o : Outcome) : Option Nat :=
  o.sent.head?.map (fun s => s.status)

/-- An early-rejection outcome: one error send, no state change. -/
def reject (st : Nat) (msg : String) (alw : Option String)
    (sc bl : Bool) (env : Env) : Outcome :=
  ⟨[⟨st, RespBody.err msg⟩], alw, env.db, env.files, false, false, sc, bl, false⟩

/-- The top-level catch: a generic 500 with the state as it was when the
exception was thrown. -/
def err500 (sc bl att : Bool) (db : List BannerImage)
    (files : List String) : Outcome :=
  ⟨[⟨500, RespBody.err "Internal Server Error"⟩], none, db, files,
    false, true, sc, bl, att⟩

/-- The `req.on('data', ...)` callback iterated over the body chunks:
maintains the running size, and on the first chunk that pushes it over
`maxSize` destroys the request, best-effort unlinks the file being
written, and stops (no further chunks are delivered after `destroy`).
Returns the final filesystem and whether the overflow guard fired. -/
def streamChunks (unlinkOk : Bool) (path : String) :
    List Nat → Nat → List String → List String × Bool
  | [], _, files => (files, false)
  | c :: rest, size, files =>
    if size + c > maxSize then
      ((if unlinkOk then files.filter (fun p => p != path) else files), true)
    else
      streamChunks unlinkOk path rest (size + c) files

/-- The tail of the handler after the old banner (if any) was handled:
create the new record, mkdir, open the write stream, register the data
listener, and send the success response (the `successful` flag is read
before any chunk has arrived, so the 200 is always the first send; an
overflow adds a late 413 attempt). -/
def finishUpload (env : Env) (user : Identity) (req : Request)
    (db : List BannerImage) (files : List String)
    (oldAttempted : Bool) : Outcome :=
  if env.failAt = some Stage.createRecord then
    err500 true true oldAttempted db files
  else
    let newRec : BannerImage := ⟨env.freshId, imageUrl env.freshId, user.projectId⟩
    let db2 := db ++ [newRec]
    if env.failAt = some Stage.mkdirUploads then
      err500 true true oldAttempted db2 files
    else if env.failAt = some Stage.openStream then
      err500 true true oldAttempted db2 files
    else
      let path := uploadPath env.freshId
      let result := streamChunks env.midUnlinkOk path req.chunks 0 (files ++ [path])
      ⟨⟨200, RespBody.url (imageUrl env.freshId)⟩ ::
          (if result.2 then
            [⟨413, RespBody.err "Resource size exceeds limit (5MB)"⟩]
          else []),
        none, db2, result.1, result.2, false, true, true, oldAttempted⟩

/-- The upload handler, mirroring the source control flow: method gate,
try block with config gate, declared-size gate, session gate, banner
lookup, delete-old, create-new, stream. -/
def handler (env : Env) (req : Request) : Outcome :=
  if req.method ≠ "POST" then
    reject 405 "Method Not Allowed" (some "POST") false false env
  else if env.failAt = some Stage.configLookup then
    err500 false false false env.db env.files
  else if env.forbidEditing = some true then
    reject 400 "Bad Request: Project editing is not currently allowed"
      none false false env
  else if req.contentLength.getD 0 > maxSize then
    reject 413 "Resource size exceeds limit (5MB)" none false false env
  else if env.failAt = some Stage.sessionResolve then
    err500 true false false env.db env.files
  else
    match env.session with
    | none => reject 401 "Unauthorized" none true false env
    | some user =>
      if env.failAt = some Stage.bannerLookup then
        err500 true true false env.db env.files
      else
        match env.db.find? (fun b => b.projectId == user.projectId) with
        | some banner =>
          if env.failAt = some Stage.deleteRecord then
            err500 true true false env.db env.files
          else
            finishUpload env user req
              (env.db.filter (fun b => b.id != banner.id))
              (if env.oldUnlinkOk then
                env.files.filter (fun p => p != uploadPath banner.id)
              else env.files)
              true
        | none => finishUpload env user req env.db env.files false

/-- Number of banner records the record store holds for a project. -/
def bannerCount (db : List BannerImage) (pid : String) : Nat :=
  (db.filter (fun b => b.projectId == pid)).length

/-! ## Helper lemmas -/

/-- A list of length at most one has at most one member. -/
theorem eq_of_length_le_one {α : Type} {l : List α} (h : l.length ≤ 1)
    {a b : α} (ha : a ∈ l) (hb : b ∈ l) : a = b := by
  match l with
  | [] => cases ha
  | [x] =>
    rw [List.mem_singleton] at ha hb
    rw [ha, hb]
  | x :: y :: t =>
    exfalso
    simp [List.length_cons] at h

/-- When the whole body fits under the ceiling, the overflow guard never
fires and the filesystem is untouched by the data callback. -/
theorem streamChunks_of_sum_le (unlinkOk : Bool) (path : String)
    (chunks : List Nat) :
    ∀ (size : Nat) (files : List String), size + chunks.sum ≤ maxSize →
      streamChunks unlinkOk path chunks size files = (files, false) := by
  induction chunks with
  | nil => intro size files h; rfl
  | cons c rest ih =>
    intro size files h
    rw [List.sum_cons] at h
    have hc : ¬ (size + c > maxSize) := by omega
    simp only [streamChunks, if_neg hc]
    exact ih (size + c) files (by omega)

/-- When the body exceeds the ceiling, the overflow guard fires and (when
the best-effort unlink succeeds) removes the file being written. -/
theorem streamChunks_of_sum_gt (unlinkOk : Bool) (path : String)
    (chunks : List Nat) :
    ∀ (size : Nat) (files : List String), size ≤ maxSize →
      maxSize < size + chunks.sum →
      streamChunks unlinkOk path chunks size files =
        ((if unlinkOk then files.filter (fun p => p != path) else files), true) := by
  induction chunks with
  | nil =>
    intro size files h1 h2
    rw [List.sum_nil] at h2
    exact absurd h2 (by omega)
  | cons c rest ih =>
    intro size files h1 h2
    rw [List.sum_cons] at h2
    by_cases hc : size + c > maxSize
    · simp only [streamChunks, if_pos hc]
    · simp only [streamChunks, if_neg hc]
      exact ih (size + c) files (by omega) (by omega)

/-! ## Claims -/

/-- Claim C8: for every request whose HTTP method is not POST, the handler
responds 405 with an Allow header naming POST and performs no other side
effect (no record mutation, no file write, no destroy, no session or
banner lookup). -/
theorem bad_method_rejected_405 (env : Env) (req : Request)
    (hm : req.method ≠ "POST") :
    (handler env req).sent = [⟨405, RespBody.err "Method Not Allowed"⟩] ∧
    (handler env req).allow = some "POST" ∧
    (handler env req).db = env.db ∧
    (handler env req).files = env.files ∧
    (handler env req).destroyed = false ∧
    (handler env req).caught = false ∧
    (handler env req).sessionConsulted = false ∧
    (handler env req).bannerLookupDone = false ∧
    (handler env req).oldFileDeleteAttempted = false := by
  simp [handler, reject, hm]

/-- Witness for C8 at a concrete GET request. -/
theorem bad_method_rejected_405_witness :
    (Request.mk "GET" none []).method ≠ "POST" ∧
    ((handler (Env.mk none none [] [] "n" none true true) (Request.mk "GET" none [])).sent =
        [⟨405, RespBody.err "Method Not Allowed"⟩] ∧
      (handler (Env.mk none none [] [] "n" none true true) (Request.mk "GET" none [])).allow = some "POST" ∧
      (handler (Env.mk none none [] [] "n" none true true) (Request.mk "GET" none [])).db = [] ∧
      (handler (Env.mk none none [] [] "n" none true true) (Request.mk "GET" none [])).files = [] ∧
      (handler (Env.mk none none [] [] "n" none true true) (Request.mk "GET" none [])).destroyed = false ∧
      (handler (Env.mk none none [] [] "n" none true true) (Request.mk "GET" none [])).caught = false ∧
      (handler (Env.mk none none [] [] "n" none true true) (Request.mk "GET" none [])).sessionConsulted = false ∧
      (handler (Env.mk none none [] [] "n" none true true) (Request.mk "GET" none [])).bannerLookupDone = false ∧
      (handler (Env.mk none none [] [] "n" none true true) (Request.mk "GET" none [])).oldFileDeleteAttempted = false) :=
  ⟨by decide, bad_method_rejected_405 (Env.mk none none [] [] "n" none true true)
    (Request.mk "GET" none []) (by decide)⟩

/-- Claim C7, counterexample: a GET request while `forbidEditing` is true
is answered 405 by the method gate, not 400, so the claim quantified over
every request fails. -/
theorem forbid_editing_get_is_405 :
    (Env.mk (some true) none [] [] "n" none true true).forbidEditing = some true ∧
    clientStatus (handler (Env.mk (some true) none [] [] "n" none true true)
      (Request.mk "GET" none [])) = some 405 ∧
    ¬ clientStatus (handler (Env.mk (some true) none [] [] "n" none true true)
      (Request.mk "GET" none [])) = some 400 := by
  decide

/-- Claim C7 (amended to POST requests whose config lookup succeeds):
when `forbidEditing` is true the handler responds 400 regardless of the
payload, and neither the session resolver nor the banner lookup runs, and
no record or file changes. -/
theorem forbid_editing_post_rejected_400 (env : Env) (req : Request)
    (hm : req.method = "POST")
    (hc : env.failAt ≠ some Stage.configLookup)
    (hf : env.forbidEditing = some true) :
    clientStatus (handler env req) = some 400 ∧
    (handler env req).sessionConsulted = false ∧
    (handler env req).bannerLookupDone = false ∧
    (handler env req).db = env.db ∧
    (handler env req).files = env.files := by
  simp [handler, reject, clientStatus, hm, hc, hf]

/-- Witness for the amended C7 at a concrete POST request. -/
theorem forbid_editing_post_rejected_400_witness :
    (Request.mk "POST" (some 9) [1, 2]).method = "POST" ∧
    (Env.mk (some true) none [] [] "n" none true true).failAt ≠ some Stage.configLookup ∧
    (Env.mk (some true) none [] [] "n" none true true).forbidEditing = some true ∧
    (clientStatus (handler (Env.mk (some true) none [] [] "n" none true true)
        (Request.mk "POST" (some 9) [1, 2])) = some 400 ∧
      (handler (Env.mk (some true) none [] [] "n" none true true)
        (Request.mk "POST" (some 9) [1, 2])).sessionConsulted = false ∧
      (handler (Env.mk (some true) none [] [] "n" none true true)
        (Request.mk "POST" (some 9) [1, 2])).bannerLookupDone = false ∧
      (handler (Env.mk (some true) none [] [] "n" none true true)
        (Request.mk "POST" (some 9) [1, 2])).db = [] ∧
      (handler (Env.mk (some true) none [] [] "n" none true true)
        (Request.mk "POST" (some 9) [1, 2])).files = []) :=
  ⟨by decide, by decide, by decide,
    forbid_editing_post_rejected_400 (Env.mk (some true) none [] [] "n" none true true)
      (Request.mk "POST" (some 9) [1, 2]) (by decide) (by decide) (by decide)⟩

/-- Claim C4, counterexample: a GET request with declared content-length
6,000,000 is answered 405 by the method gate, not 413, so the claim
quantified over every request fails. -/
theorem declared_oversize_get_is_405 :
    (Request.mk "GET" (some 6000000) []).contentLength.getD 0 > maxSize ∧
    clientStatus (handler (Env.mk none none [] [] "n" none true true)
      (Request.mk "GET" (some 6000000) [])) = some 405 ∧
    ¬ clientStatus (handler (Env.mk none none [] [] "n" none true true)
      (Request.mk "GET" (some 6000000) [])) = some 413 := by
  decide

/-- Claim C4 (amended to POST requests whose config lookup succeeds and
for which editing is not forbidden): a declared content-length over
5,000,000 is answered 413 with no file written, no record change, and
neither the session resolver nor the banner lookup consulted. -/
theorem declared_oversize_post_rejected_413 (env : Env) (req : Request)
    (hm : req.method = "POST")
    (hc : env.failAt ≠ some Stage.configLookup)
    (hf : env.forbidEditing ≠ some true)
    (hl : req.contentLength.getD 0 > maxSize) :
    clientStatus (handler env req) = some 413 ∧
    (handler env req).files = env.files ∧
    (handler env req).db = env.db ∧
    (handler env req).sessionConsulted = false ∧
    (handler env req).bannerLookupDone = false := by
  simp [handler, reject, clientStatus, hm, hc, hf, hl]

/-- Witness for the amended C4 at a concrete POST request. -/
theorem declared_oversize_post_rejected_413_witness :
    (Request.mk "POST" (some 5000001) []).method = "POST" ∧
    (Env.mk none none [] [] "n" none true true).failAt ≠ some Stage.configLookup ∧
    (Env.mk none none [] [] "n" none true true).forbidEditing ≠ some true ∧
    (Request.mk "POST" (some 5000001) []).contentLength.getD 0 > maxSize ∧
    (clientStatus (handler (Env.mk none none [] [] "n" none true true)
        (Request.mk "POST" (some 5000001) [])) = some 413 ∧
      (handler (Env.mk none none [] [] "n" none true true)
        (Request.mk "POST" (some 5000001) [])).files = [] ∧
      (handler (Env.mk none none [] [] "n" none true true)
        (Request.mk "POST" (some 5000001) [])).db = [] ∧
      (handler (Env.mk none none [] [] "n" none true true)
        (Request.mk "POST" (some 5000001) [])).sessionConsulted = false ∧
      (handler (Env.mk none none [] [] "n" none true true)
        (Request.mk "POST" (some 5000001) [])).bannerLookupDone = false) :=
  ⟨by decide, by decide, by decide, by decide,
    declared_oversize_post_rejected_413 (Env.mk none none [] [] "n" none true true)
      (Request.mk "POST" (some 5000001) []) (by decide) (by decide) (by decide) (by decide)⟩

/-- Claim C5, counterexample: a GET request without a session is answered
405 by the method gate, not 401, so the claim quantified over every
request fails. -/
theorem no_session_get_is_405 :
    (Env.mk none none [] [] "n" none true true).session = none ∧
    clientStatus (handler (Env.mk none none [] [] "n" none true true)
      (Request.mk "GET" none [])) = some 405 ∧
    ¬ clientStatus (handler (Env.mk none none [] [] "n" none true true)
      (Request.mk "GET" none [])) = some 401 := by
  decide

/-- Claim C5 (amended to POST requests that pass the config and
declared-size gates and whose config and session lookups do not throw):
without a valid session the handler responds 401 and performs no record
mutation and no file write. -/
theorem no_session_post_rejected_401 (env : Env) (req : Request)
    (hm : req.method = "POST")
    (hca : env.failAt ≠ some Stage.configLookup)
    (hcb : env.failAt ≠ some Stage.sessionResolve)
    (hf : env.forbidEditing ≠ some true)
    (hl : req.contentLength.getD 0 ≤ maxSize)
    (hs : env.session = none) :
    clientStatus (handler env req) = some 401 ∧
    (handler env req).db = env.db ∧
    (handler env req).files = env.files ∧
    (handler env req).bannerLookupDone = false := by
  simp [handler, reject, clientStatus, hm, hca, hcb, hf, hs, Nat.not_lt.mpr hl]

/-- Witness for the amended C5 at a concrete POST request. -/
theorem no_session_post_rejected_401_witness :
    (Request.mk "POST" (some 10) [5]).method = "POST" ∧
    (Env.mk none none [⟨"b", "u", "p"⟩] ["f"] "n" none true true).failAt ≠ some Stage.configLookup ∧
    (Env.mk none none [⟨"b", "u", "p"⟩] ["f"] "n" none true true).failAt ≠ some Stage.sessionResolve ∧
    (Env.mk none none [⟨"b", "u", "p"⟩] ["f"] "n" none true true).forbidEditing ≠ some true ∧
    (Request.mk "POST" (some 10) [5]).contentLength.getD 0 ≤ maxSize ∧
    (Env.mk none none [⟨"b", "u", "p"⟩] ["f"] "n" none true true).session = none ∧
    (clientStatus (handler (Env.mk none none [⟨"b", "u", "p"⟩] ["f"] "n" none true true)
        (Request.mk "POST" (some 10) [5])) = some 401 ∧
      (handler (Env.mk none none [⟨"b", "u", "p"⟩] ["f"] "n" none true true)
        (Request.mk "POST" (some 10) [5])).db = [⟨"b", "u", "p"⟩] ∧
      (handler (Env.mk none none [⟨"b", "u", "p"⟩] ["f"] "n" none true true)
        (Request.mk "POST" (some 10) [5])).files = ["f"] ∧
      (handler (Env.mk none none [⟨"b", "u", "p"⟩] ["f"] "n" none true true)
        (Request.mk "POST" (some 10) [5])).bannerLookupDone = false) :=
  ⟨by decide, by decide, by decide, by decide, by decide, by decide,
    no_session_post_rejected_401 (Env.mk none none [⟨"b", "u", "p"⟩] ["f"] "n" none true true)
      (Request.mk "POST" (some 10) [5]) (by decide) (by decide) (by decide) (by decide)
      (by decide) (by decide)⟩

/-- If the upload tail ends in the catch, the only send is the generic
500. -/
theorem finishUpload_caught (env : Env) (user : Identity) (req : Request)
    (db : List BannerImage) (files : List String) (att : Bool)
    (h : (finishUpload env user req db files att).caught = true) :
    (finishUpload env user req db files att).sent =
      [⟨500, RespBody.err "Internal Server Error"⟩] ∧
    clientStatus (finishUpload env user req db files att) = some 500 := by
  by_cases c5 : env.failAt = some Stage.createRecord
  · simp [finishUpload, err500, clientStatus, c5]
  · by_cases c6 : env.failAt = some Stage.mkdirUploads
    · simp [finishUpload, err500, clientStatus, c5, c6]
    · by_cases c7 : env.failAt = some Stage.openStream
      · simp [finishUpload, err500, clientStatus, c5, c6, c7]
      · simp [finishUpload, c5, c6, c7] at h

/-- Claim C9: whenever the top-level catch runs, the only response sent is
a 500 whose body is the fixed generic string, independent of the request
and of which pipeline operation threw. -/
theorem caught_exception_generic_500 (env : Env) (req : Request)
    (h : (handler env req).caught = true) :
    (handler env req).sent = [⟨500, RespBody.err "Internal Server Error"⟩] ∧
    clientStatus (handler env req) = some 500 := by
  by_cases hm : req.method = "POST"
  · by_cases c1 : env.failAt = some Stage.configLookup
    · simp [handler, err500, clientStatus, hm, c1]
    · by_cases hf : env.forbidEditing = some true
      · simp [handler, reject, hm, c1, hf] at h
      · by_cases hl : req.contentLength.getD 0 > maxSize
        · simp [handler, reject, hm, c1, hf, hl] at h
        · by_cases c2 : env.failAt = some Stage.sessionResolve
          · simp [handler, err500, clientStatus, hm, c1, hf, hl, c2]
          · cases hs : env.session with
            | none => simp [handler, reject, hm, c1, hf, hl, c2, hs] at h
            | some user =>
              by_cases c3 : env.failAt = some Stage.bannerLookup
              · simp [handler, err500, clientStatus, hm, c1, hf, hl, c2, hs, c3]
              · cases hfind : env.db.find? (fun b => b.projectId == user.projectId) with
                | some banner =>
                  by_cases c4 : env.failAt = some Stage.deleteRecord
                  · simp [handler, err500, clientStatus, hm, c1, hf, hl, c2, hs, c3, hfind, c4]
                  · have hred : handler env req = finishUpload env user req
                        (env.db.filter (fun b => b.id != banner.id))
                        (if env.oldUnlinkOk then
                          env.files.filter (fun p => p != uploadPath banner.id)
                        else env.files) true := by
                      simp [handler, hm, c1, hf, hl, c2, hs, c3, hfind, c4]
                    rw [hred] at h ⊢
                    exact finishUpload_caught env user req _ _ _ h
                | none =>
                  have hred : handler env req = finishUpload env user req env.db env.files false := by
                    simp [handler, hm, c1, hf, hl, c2, hs, c3, hfind]
                  rw [hred] at h ⊢
                  exact finishUpload_caught env user req _ _ _ h
  · simp [handler, reject, hm] at h

/-- Witness for C9 at a concrete environment whose record-store create
throws. -/
theorem caught_exception_generic_500_witness :
    (handler (Env.mk none (some ⟨"u@x", "p1"⟩) [] [] "n" (some Stage.createRecord) true true)
      (Request.mk "POST" (some 10) [5])).caught = true ∧
    ((handler (Env.mk none (some ⟨"u@x", "p1"⟩) [] [] "n" (some Stage.createRecord) true true)
        (Request.mk "POST" (some 10) [5])).sent =
        [⟨500, RespBody.err "Internal Server Error"⟩] ∧
      clientStatus (handler (Env.mk none (some ⟨"u@x", "p1"⟩) [] [] "n" (some Stage.createRecord) true true)
        (Request.mk "POST" (some 10) [5])) = some 500) :=
  ⟨by decide,
    caught_exception_generic_500
      (Env.mk none (some ⟨"u@x", "p1"⟩) [] [] "n" (some Stage.createRecord) true true)
      (Request.mk "POST" (some 10) [5]) (by decide)⟩

/-- Reduction of a fully validated request with a prior banner to the
upload tail. -/
theorem handler_reduces_some (env : Env) (user : Identity)
    (banner : BannerImage) (req : Request)
    (hm : req.method = "POST") (hfa : env.failAt = none)
    (hf : env.forbidEditing ≠ some true)
    (hl : req.contentLength.getD 0 ≤ maxSize)
    (hs : env.session = some user)
    (hfind : env.db.find? (fun b => b.projectId == user.projectId) = some banner) :
    handler env req = finishUpload env user req
      (env.db.filter (fun b => b.id != banner.id))
      (if env.oldUnlinkOk then
        env.files.filter (fun p => p != uploadPath banner.id)
      else env.files)
      true := by
  simp [handler, hm, hfa, hf, hs, hfind, Nat.not_lt.mpr hl]

/-- Reduction of a fully validated request without a prior banner to the
upload tail. -/
theorem handler_reduces_none (env : Env) (user : Identity) (req : Request)
    (hm : req.method = "POST") (hfa : env.failAt = none)
    (hf : env.forbidEditing ≠ some true)
    (hl : req.contentLength.getD 0 ≤ maxSize)
    (hs : env.session = some user)
    (hfind : env.db.find? (fun b => b.projectId == user.projectId) = none) :
    handler env req = finishUpload env user req env.db env.files false := by
  simp [handler, hm, hfa, hf, hs, hfind, Nat.not_lt.mpr hl]

/-- The upload tail on a body that fits under the ceiling: one 200 send,
the new record appended, the new file on disk. -/
theorem finishUpload_no_overflow (env : Env) (user : Identity) (req : Request)
    (db : List BannerImage) (files : List String) (att : Bool)
    (hfa : env.failAt = none) (hsum : req.chunks.sum ≤ maxSize) :
    finishUpload env user req db files att =
      ⟨[⟨200, RespBody.url (imageUrl env.freshId)⟩], none,
        db ++ [⟨env.freshId, imageUrl env.freshId, user.projectId⟩],
        files ++ [uploadPath env.freshId], false, false, true, true, att⟩ := by
  have hstream := streamChunks_of_sum_le env.midUnlinkOk (uploadPath env.freshId)
    req.chunks 0 (files ++ [uploadPath env.freshId]) (by simpa using hsum)
  simp [finishUpload, hfa, hstream]

/-- The upload tail on a body that overflows the ceiling (with a
succeeding best-effort unlink): the 200 send followed by the late 413
attempt, the new record appended, the new file removed, the request
destroyed. -/
theorem finishUpload_overflow (env : Env) (user : Identity) (req : Request)
    (db : List BannerImage) (files : List String) (att : Bool)
    (hfa : env.failAt = none) (hu : env.midUnlinkOk = true)
    (hsum : maxSize < req.chunks.sum) :
    finishUpload env user req db files att =
      ⟨[⟨200, RespBody.url (imageUrl env.freshId)⟩,
        ⟨413, RespBody.err "Resource size exceeds limit (5MB)"⟩], none,
        db ++ [⟨env.freshId, imageUrl env.freshId, user.projectId⟩],
        (files ++ [uploadPath env.freshId]).filter
          (fun p => p != uploadPath env.freshId),
        true, false, true, true, att⟩ := by
  have hstream := streamChunks_of_sum_gt env.midUnlinkOk (uploadPath env.freshId)
    req.chunks 0 (files ++ [uploadPath env.freshId]) (by omega) (by simpa using hsum)
  rw [hu] at hstream
  simp only [if_pos] at hstream
  simp [finishUpload, hfa, hu, hstream]

/-- Claim C6: on every successful upload the response body's URL is the
`url` field of the newly created record, character for character. -/
theorem returned_url_eq_stored_url (env : Env) (req : Request) (user : Identity)
    (hm : req.method = "POST") (hfa : env.failAt = none)
    (hf : env.forbidEditing ≠ some true)
    (hl : req.contentLength.getD 0 ≤ maxSize)
    (hs : env.session = some user)
    (hsum : req.chunks.sum ≤ maxSize) :
    ∃ r : BannerImage, r ∈ (handler env req).db ∧ r.id = env.freshId ∧
      (handler env req).sent = [⟨200, RespBody.url r.url⟩] := by
  cases hfind : env.db.find? (fun b => b.projectId == user.projectId) with
  | some banner =>
    rw [handler_reduces_some env user banner req hm hfa hf hl hs hfind,
      finishUpload_no_overflow env user req _ _ _ hfa hsum]
    exact ⟨⟨env.freshId, imageUrl env.freshId, user.projectId⟩, by simp, rfl, rfl⟩
  | none =>
    rw [handler_reduces_none env user req hm hfa hf hl hs hfind,
      finishUpload_no_overflow env user req _ _ _ hfa hsum]
    exact ⟨⟨env.freshId, imageUrl env.freshId, user.projectId⟩, by simp, rfl, rfl⟩

/-- Witness for C6 at a concrete successful upload. -/
theorem returned_url_eq_stored_url_witness :
    (Request.mk "POST" (some 100) [50, 50]).method = "POST" ∧
    (Env.mk none (some ⟨"u@x", "p1"⟩) [] [] "newid" none true true).failAt = none ∧
    (Env.mk none (some ⟨"u@x", "p1"⟩) [] [] "newid" none true true).forbidEditing ≠ some true ∧
    (Request.mk "POST" (some 100) [50, 50]).contentLength.getD 0 ≤ maxSize ∧
    (Env.mk none (some ⟨"u@x", "p1"⟩) [] [] "newid" none true true).session = some ⟨"u@x", "p1"⟩ ∧
    (Request.mk "POST" (some 100) [50, 50]).chunks.sum ≤ maxSize ∧
    (∃ r : BannerImage,
      r ∈ (handler (Env.mk none (some ⟨"u@x", "p1"⟩) [] [] "newid" none true true)
        (Request.mk "POST" (some 100) [50, 50])).db ∧
      r.id = (Env.mk none (some ⟨"u@x", "p1"⟩) [] [] "newid" none true true).freshId ∧
      (handler (Env.mk none (some ⟨"u@x", "p1"⟩) [] [] "newid" none true true)
        (Request.mk "POST" (some 100) [50, 50])).sent = [⟨200, RespBody.url r.url⟩]) :=
  ⟨by decide, by decide, by decide, by decide, by decide, by decide,
    returned_url_eq_stored_url (Env.mk none (some ⟨"u@x", "p1"⟩) [] [] "newid" none true true)
      (Request.mk "POST" (some 100) [50, 50]) ⟨"u@x", "p1"⟩
      (by decide) (by decide) (by decide) (by decide) (by decide) (by decide)⟩

/-- After deleting the record found for a project (by id), no record for
that project remains, provided at most one existed. -/
theorem bannerCount_after_delete (db : List BannerImage) (banner : BannerImage)
    (pid : String)
    (hfind : db.find? (fun b => b.projectId == pid) = some banner)
    (hinv : bannerCount db pid ≤ 1) :
    (db.filter (fun b => b.id != banner.id)).filter
      (fun b => b.projectId == pid) = [] := by
  have hbm : banner ∈ db := List.mem_of_find?_eq_some hfind
  have hbp : (banner.projectId == pid) = true := by
    have h2 := List.find?_some hfind
    simpa using h2
  have hinv2 : (db.filter (fun b => b.projectId == pid)).length ≤ 1 := hinv
  rw [List.eq_nil_iff_forall_not_mem]
  intro b hb
  rcases List.mem_filter.mp hb with ⟨hb1, hbp2⟩
  rcases List.mem_filter.mp hb1 with ⟨hbmem, hbid⟩
  have hbb : b ∈ db.filter (fun x => x.projectId == pid) :=
    List.mem_filter.mpr ⟨hbmem, hbp2⟩
  have hob : banner ∈ db.filter (fun x => x.projectId == pid) :=
    List.mem_filter.mpr ⟨hbm, hbp⟩
  have heq := eq_of_length_le_one hinv2 hbb hob
  rw [heq] at hbid
  simp at hbid

/-- Claim C2: for a validated request with a prior banner, after a
successful upload the old record is gone, the old file's deletion was
attempted, and exactly one record (the new one, with the fresh id) exists
for the caller's project. -/
theorem upload_replaces_prior_banner (env : Env) (req : Request)
    (user : Identity) (old : BannerImage)
    (hm : req.method = "POST") (hfa : env.failAt = none)
    (hf : env.forbidEditing ≠ some true)
    (hl : req.contentLength.getD 0 ≤ maxSize)
    (hs : env.session = some user)
    (hfind : env.db.find? (fun b => b.projectId == user.projectId) = some old)
    (hinv : bannerCount env.db user.projectId ≤ 1)
    (hfresh : ∀ b ∈ env.db, b.id ≠ env.freshId)
    (hsum : req.chunks.sum ≤ maxSize) :
    old ∉ (handler env req).db ∧
    (handler env req).oldFileDeleteAttempted = true ∧
    (handler env req).db.filter (fun b => b.projectId == user.projectId) =
      [⟨env.freshId, imageUrl env.freshId, user.projectId⟩] ∧
    env.freshId ≠ old.id := by
  rw [handler_reduces_some env user old req hm hfa hf hl hs hfind,
    finishUpload_no_overflow env user req _ _ _ hfa hsum]
  have hold_mem : old ∈ env.db := List.mem_of_find?_eq_some hfind
  have hfresh_old : env.freshId ≠ old.id := fun h => hfresh old hold_mem h.symm
  refine ⟨?_, rfl, ?_, hfresh_old⟩
  · intro hmem
    rcases List.mem_append.mp hmem with h1 | h1
    · rcases List.mem_filter.mp h1 with ⟨_, hid⟩
      simp at hid
    · rw [List.mem_singleton] at h1
      exact hfresh old hold_mem (by rw [h1])
  · rw [List.filter_append, bannerCount_after_delete env.db old user.projectId hfind hinv]
    simp

/-- Witness for C2 at a concrete replacement upload. -/
theorem upload_replaces_prior_banner_witness :
    (Request.mk "POST" (some 100) [60]).method = "POST" ∧
    (Env.mk none (some ⟨"u@x", "p1"⟩) [⟨"oldid", imageUrl "oldid", "p1"⟩]
      [uploadPath "oldid"] "newid" none true true).failAt = none ∧
    (Env.mk none (some ⟨"u@x", "p1"⟩) [⟨"oldid", imageUrl "oldid", "p1"⟩]
      [uploadPath "oldid"] "newid" none true true).forbidEditing ≠ some true ∧
    (Request.mk "POST" (some 100) [60]).contentLength.getD 0 ≤ maxSize ∧
    (Env.mk none (some ⟨"u@x", "p1"⟩) [⟨"oldid", imageUrl "oldid", "p1"⟩]
      [uploadPath "oldid"] "newid" none true true).session = some ⟨"u@x", "p1"⟩ ∧
    (Env.mk none (some ⟨"u@x", "p1"⟩) [⟨"oldid", imageUrl "oldid", "p1"⟩]
      [uploadPath "oldid"] "newid" none true true).db.find?
        (fun b => b.projectId == ("p1" : String)) = some ⟨"oldid", imageUrl "oldid", "p1"⟩ ∧
    bannerCount (Env.mk none (some ⟨"u@x", "p1"⟩) [⟨"oldid", imageUrl "oldid", "p1"⟩]
      [uploadPath "oldid"] "newid" none true true).db "p1" ≤ 1 ∧
    (∀ b ∈ (Env.mk none (some ⟨"u@x", "p1"⟩) [⟨"oldid", imageUrl "oldid", "p1"⟩]
      [uploadPath "oldid"] "newid" none true true).db, b.id ≠ "newid") ∧
    (Request.mk "POST" (some 100) [60]).chunks.sum ≤ maxSize ∧
    ((⟨"oldid", imageUrl "oldid", "p1"⟩ : BannerImage) ∉
      (handler (Env.mk none (some ⟨"u@x", "p1"⟩) [⟨"oldid", imageUrl "oldid", "p1"⟩]
        [uploadPath "oldid"] "newid" none true true) (Request.mk "POST" (some 100) [60])).db ∧
      (handler (Env.mk none (some ⟨"u@x", "p1"⟩) [⟨"oldid", imageUrl "oldid", "p1"⟩]
        [uploadPath "oldid"] "newid" none true true)
        (Request.mk "POST" (some 100) [60])).oldFileDeleteAttempted = true ∧
      (handler (Env.mk none (some ⟨"u@x", "p1"⟩) [⟨"oldid", imageUrl "oldid", "p1"⟩]
        [uploadPath "oldid"] "newid" none true true)
        (Request.mk "POST" (some 100) [60])).db.filter
          (fun b => b.projectId == ("p1" : String)) = [⟨"newid", imageUrl "newid", "p1"⟩] ∧
      ("newid" : String) ≠ "oldid") :=
  ⟨by decide, by decide, by decide, by decide, by decide, by decide, by decide,
    by decide, by decide,
    upload_replaces_prior_banner
      (Env.mk none (some ⟨"u@x", "p1"⟩) [⟨"oldid", imageUrl "oldid", "p1"⟩]
        [uploadPath "oldid"] "newid" none true true)
      (Request.mk "POST" (some 100) [60]) ⟨"u@x", "p1"⟩ ⟨"oldid", imageUrl "oldid", "p1"⟩
      (by decide) (by decide) (by decide) (by decide) (by decide) (by decide)
      (by decide) (by decide) (by decide)⟩

/-- The upload tail either leaves the record store as given or appends
exactly the one new record, on every path. -/
theorem finishUpload_db (env : Env) (user : Identity) (req : Request)
    (db : List BannerImage) (files : List String) (att : Bool) :
    (finishUpload env user req db files att).db = db ∨
    (finishUpload env user req db files att).db =
      db ++ [⟨env.freshId, imageUrl env.freshId, user.projectId⟩] := by
  by_cases c5 : env.failAt = some Stage.createRecord
  · left; simp [finishUpload, err500, c5]
  · by_cases c6 : env.failAt = some Stage.mkdirUploads
    · right; simp [finishUpload, err500, c5, c6]
    · by_cases c7 : env.failAt = some Stage.openStream
      · right; simp [finishUpload, err500, c5, c6, c7]
      · right; simp [finishUpload, c5, c6, c7]

/-- On every execution path, the handler either leaves the record store
unchanged, or (with a session present) deletes the found banner and then
possibly appends the new record, or appends the new record when no banner
was found. -/
theorem handler_db_cases (env : Env) (req : Request) :
    (handler env req).db = env.db ∨
    (∃ user banner, env.session = some user ∧
      env.db.find? (fun b => b.projectId == user.projectId) = some banner ∧
      ((handler env req).db = env.db.filter (fun b => b.id != banner.id) ∨
        (handler env req).db = env.db.filter (fun b => b.id != banner.id) ++
          [⟨env.freshId, imageUrl env.freshId, user.projectId⟩])) ∨
    (∃ user, env.session = some user ∧
      env.db.find? (fun b => b.projectId == user.projectId) = none ∧
      (handler env req).db = env.db ++
        [⟨env.freshId, imageUrl env.freshId, user.projectId⟩]) := by
  by_cases hm : req.method = "POST"
  · by_cases c1 : env.failAt = some Stage.configLookup
    · left; simp [handler, err500, hm, c1]
    · by_cases hf : env.forbidEditing = some true
      · left; simp [handler, reject, hm, c1, hf]
      · by_cases hl : req.contentLength.getD 0 > maxSize
        · left; simp [handler, reject, hm, c1, hf, hl]
        · by_cases c2 : env.failAt = some Stage.sessionResolve
          · left; simp [handler, err500, hm, c1, hf, hl, c2]
          · cases hs : env.session with
            | none => left; simp [handler, reject, hm, c1, hf, hl, c2, hs]
            | some user =>
              by_cases c3 : env.failAt = some Stage.bannerLookup
              · left; simp [handler, err500, hm, c1, hf, hl, c2, hs, c3]
              · cases hfind : env.db.find? (fun b => b.projectId == user.projectId) with
                | some banner =>
                  by_cases c4 : env.failAt = some Stage.deleteRecord
                  · left
                    simp [handler, err500, hm, c1, hf, hl, c2, hs, c3, hfind, c4]
                  · have hred : handler env req = finishUpload env user req
                        (env.db.filter (fun b => b.id != banner.id))
                        (if env.oldUnlinkOk then
                          env.files.filter (fun p => p != uploadPath banner.id)
                        else env.files) true := by
                      simp [handler, hm, c1, hf, hl, c2, hs, c3, hfind, c4]
                    rcases finishUpload_db env user req
                        (env.db.filter (fun b => b.id != banner.id))
                        (if env.oldUnlinkOk then
                          env.files.filter (fun p => p != uploadPath banner.id)
                        else env.files) true with hdb | hdb
                    · exact Or.inr (Or.inl ⟨user, banner, rfl, hfind,
                        Or.inl (by rw [hred]; exact hdb)⟩)
                    · exact Or.inr (Or.inl ⟨user, banner, rfl, hfind,
                        Or.inr (by rw [hred]; exact hdb)⟩)
                | none =>
                  have hred : handler env req =
                      finishUpload env user req env.db env.files false := by
                    simp [handler, hm, c1, hf, hl, c2, hs, c3, hfind]
                  rcases finishUpload_db env user req env.db env.files false with hdb | hdb
                  · left; rw [hred]; exact hdb
                  · exact Or.inr (Or.inr ⟨user, rfl, hfind, by rw [hred]; exact hdb⟩)
  · left; simp [handler, reject, hm]

/-- Banner counting distributes over append. -/
theorem bannerCount_append (l m : List BannerImage) (pid : String) :
    bannerCount (l ++ m) pid = bannerCount l pid + bannerCount m pid := by
  simp [bannerCount, List.filter_append]

/-- Deleting records never raises a project's banner count. -/
theorem bannerCount_filter_le (l : List BannerImage) (q : BannerImage → Bool)
    (pid : String) :
    bannerCount (l.filter q) pid ≤ bannerCount l pid := by
  have hsub : List.Sublist (l.filter q) l := List.filter_sublist l
  have hsub2 : List.Sublist
      ((l.filter q).filter (fun b => b.projectId == pid))
      (l.filter (fun b => b.projectId == pid)) :=
    hsub.filter (fun b => b.projectId == pid)
  simpa [bannerCount] using hsub2.length_le

/-- The banner count of a singleton. -/
theorem bannerCount_single (b : BannerImage) (pid : String) :
    bannerCount [b] pid = if b.projectId = pid then 1 else 0 := by
  by_cases hp : b.projectId = pid <;>
    simp [bannerCount, List.filter_singleton, beq_iff_eq, hp]

/-- A project with no findable banner has banner count zero. -/
theorem bannerCount_of_find?_none (db : List BannerImage) (pid : String)
    (hfind : db.find? (fun b => b.projectId == pid) = none) :
    bannerCount db pid = 0 := by
  unfold bannerCount
  rw [List.length_eq_zero, List.eq_nil_iff_forall_not_mem]
  intro b hb
  rcases List.mem_filter.mp hb with ⟨hbm, hbp⟩
  exact absurd hbp (by simpa using List.find?_eq_none.mp hfind b hbm)

/-- Claim C3: the at-most-one-banner-per-project invariant is preserved by
every execution path of the handler. -/
theorem banner_invariant_preserved (env : Env) (req : Request) (pid : String)
    (h : bannerCount env.db pid ≤ 1) :
    bannerCount (handler env req).db pid ≤ 1 := by
  rcases handler_db_cases env req with hdb |
    ⟨user, banner, hs, hfind, hdb | hdb⟩ | ⟨user, hs, hfind, hdb⟩
  · rw [hdb]; exact h
  · rw [hdb]; exact le_trans (bannerCount_filter_le env.db _ pid) h
  · rw [hdb, bannerCount_append, bannerCount_single]
    by_cases hp : user.projectId = pid
    · subst hp
      have h0 := bannerCount_after_delete env.db banner user.projectId hfind h
      have h0len : bannerCount (env.db.filter (fun b => b.id != banner.id))
          user.projectId = 0 := by
        simp [bannerCount, h0]
      rw [h0len]
      simp
    · rw [if_neg hp]
      have hle := bannerCount_filter_le env.db (fun b => b.id != banner.id) pid
      omega
  · rw [hdb, bannerCount_append, bannerCount_single]
    by_cases hp : user.projectId = pid
    · subst hp
      rw [bannerCount_of_find?_none env.db user.projectId hfind]
      simp
    · rw [if_neg hp]
      omega

/-- Witness for C3 at a concrete environment and project. -/
theorem banner_invariant_preserved_witness :
    bannerCount (Env.mk none (some ⟨"u@x", "p1"⟩) [⟨"oldid", imageUrl "oldid", "p1"⟩]
      [uploadPath "oldid"] "newid" none true true).db "p1" ≤ 1 ∧
    bannerCount (handler (Env.mk none (some ⟨"u@x", "p1"⟩)
      [⟨"oldid", imageUrl "oldid", "p1"⟩] [uploadPath "oldid"] "newid" none true true)
      (Request.mk "POST" (some 100) [60])).db "p1" ≤ 1 :=
  ⟨by decide,
    banner_invariant_preserved
      (Env.mk none (some ⟨"u@x", "p1"⟩) [⟨"oldid", imageUrl "oldid", "p1"⟩]
        [uploadPath "oldid"] "newid" none true true)
      (Request.mk "POST" (some 100) [60]) "p1" (by decide)⟩

/-- Claim C1, behavior at the failing input: when the streamed body
exceeds the ceiling past the pre-check, the partial file is removed and
the connection destroyed as claimed, but the client-visible response is
the 200 sent before any chunk arrived; the 413 is only a late second send
attempt. -/
theorem overflow_sends_200_then_late_413 (env : Env) (req : Request)
    (user : Identity)
    (hm : req.method = "POST") (hfa : env.failAt = none)
    (hf : env.forbidEditing ≠ some true)
    (hl : req.contentLength.getD 0 ≤ maxSize)
    (hs : env.session = some user)
    (hu : env.midUnlinkOk = true)
    (hsum : maxSize < req.chunks.sum) :
    clientStatus (handler env req) = some 200 ∧
    (handler env req).destroyed = true ∧
    uploadPath env.freshId ∉ (handler env req).files ∧
    Sent.mk 413 (RespBody.err "Resource size exceeds limit (5MB)") ∈
      (handler env req).sent := by
  cases hfind : env.db.find? (fun b => b.projectId == user.projectId) with
  | some banner =>
    rw [handler_reduces_some env user banner req hm hfa hf hl hs hfind,
      finishUpload_overflow env user req _ _ _ hfa hu hsum]
    refine ⟨rfl, rfl, ?_, by simp⟩
    intro hmem
    rcases List.mem_filter.mp hmem with ⟨_, hne⟩
    simp at hne
  | none =>
    rw [handler_reduces_none env user req hm hfa hf hl hs hfind,
      finishUpload_overflow env user req _ _ _ hfa hu hsum]
    refine ⟨rfl, rfl, ?_, by simp⟩
    intro hmem
    rcases List.mem_filter.mp hmem with ⟨_, hne⟩
    simp at hne

/-- Witness for the C1 behavior theorem at a concrete overflowing body
with a lying declared content-length. -/
theorem overflow_sends_200_then_late_413_witness :
    (Request.mk "POST" (some 100) [3000000, 2500000]).method = "POST" ∧
    (Env.mk none (some ⟨"u@x", "p1"⟩) [] [] "newid" none true true).failAt = none ∧
    (Env.mk none (some ⟨"u@x", "p1"⟩) [] [] "newid" none true true).forbidEditing ≠ some true ∧
    (Request.mk "POST" (some 100) [3000000, 2500000]).contentLength.getD 0 ≤ maxSize ∧
    (Env.mk none (some ⟨"u@x", "p1"⟩) [] [] "newid" none true true).session = some ⟨"u@x", "p1"⟩ ∧
    (Env.mk none (some ⟨"u@x", "p1"⟩) [] [] "newid" none true true).midUnlinkOk = true ∧
    maxSize < (Request.mk "POST" (some 100) [3000000, 2500000]).chunks.sum ∧
    (clientStatus (handler (Env.mk none (some ⟨"u@x", "p1"⟩) [] [] "newid" none true true)
        (Request.mk "POST" (some 100) [3000000, 2500000])) = some 200 ∧
      (handler (Env.mk none (some ⟨"u@x", "p1"⟩) [] [] "newid" none true true)
        (Request.mk "POST" (some 100) [3000000, 2500000])).destroyed = true ∧
      uploadPath "newid" ∉ (handler (Env.mk none (some ⟨"u@x", "p1"⟩) [] [] "newid" none true true)
        (Request.mk "POST" (some 100) [3000000, 2500000])).files ∧
      Sent.mk 413 (RespBody.err "Resource size exceeds limit (5MB)") ∈
        (handler (Env.mk none (some ⟨"u@x", "p1"⟩) [] [] "newid" none true true)
          (Request.mk "POST" (some 100) [3000000, 2500000])).sent) :=
  ⟨by decide, by decide, by decide, by decide, by decide, by decide, by decide,
    overflow_sends_200_then_late_413
      (Env.mk none (some ⟨"u@x", "p1"⟩) [] [] "newid" none true true)
      (Request.mk "POST" (some 100) [3000000, 2500000]) ⟨"u@x", "p1"⟩
      (by decide) (by decide) (by decide) (by decide) (by decide) (by decide)
      (by decide)⟩

/-- Claim C10: when the mid-stream overflow guard fires, the provisionally
created record is never deleted: the record store keeps a record whose
backing file has been removed. -/
theorem overflow_leaves_orphan_record (env : Env) (req : Request)
    (user : Identity)
    (hm : req.method = "POST") (hfa : env.failAt = none)
    (hf : env.forbidEditing ≠ some true)
    (hl : req.contentLength.getD 0 ≤ maxSize)
    (hs : env.session = some user)
    (hu : env.midUnlinkOk = true)
    (hsum : maxSize < req.chunks.sum) :
    BannerImage.mk env.freshId (imageUrl env.freshId) user.projectId ∈
      (handler env req).db ∧
    uploadPath env.freshId ∉ (handler env req).files := by
  cases hfind : env.db.find? (fun b => b.projectId == user.projectId) with
  | some banner =>
    rw [handler_reduces_some env user banner req hm hfa hf hl hs hfind,
      finishUpload_overflow env user req _ _ _ hfa hu hsum]
    refine ⟨by simp, ?_⟩
    intro hmem
    rcases List.mem_filter.mp hmem with ⟨_, hne⟩
    simp at hne
  | none =>
    rw [handler_reduces_none env user req hm hfa hf hl hs hfind,
      finishUpload_overflow env user req _ _ _ hfa hu hsum]
    refine ⟨by simp, ?_⟩
    intro hmem
    rcases List.mem_filter.mp hmem with ⟨_, hne⟩
    simp at hne

/-- Witness for C10 at a concrete overflowing upload. -/
theorem overflow_leaves_orphan_record_witness :
    (Request.mk "POST" none [5000001]).method = "POST" ∧
    (Env.mk none (some ⟨"u@x", "p1"⟩) [] [] "newid" none true true).failAt = none ∧
    (Env.mk none (some ⟨"u@x", "p1"⟩) [] [] "newid" none true true).forbidEditing ≠ some true ∧
    (Request.mk "POST" none [5000001]).contentLength.getD 0 ≤ maxSize ∧
    (Env.mk none (some ⟨"u@x", "p1"⟩) [] [] "newid" none true true).session = some ⟨"u@x", "p1"⟩ ∧
    (Env.mk none (some ⟨"u@x", "p1"⟩) [] [] "newid" none true true).midUnlinkOk = true ∧
    maxSize < (Request.mk "POST" none [5000001]).chunks.sum ∧
    (BannerImage.mk "newid" (imageUrl "newid") "p1" ∈
      (handler (Env.mk none (some ⟨"u@x", "p1"⟩) [] [] "newid" none true true)
        (Request.mk "POST" none [5000001])).db ∧
      uploadPath "newid" ∉ (handler (Env.mk none (some ⟨"u@x", "p1"⟩) [] [] "newid" none true true)
        (Request.mk "POST" none [5000001])).files) :=
  ⟨by decide, by decide, by decide, by decide, by decide, by decide, by decide,
    overflow_leaves_orphan_record
      (Env.mk none (some ⟨"u@x", "p1"⟩) [] [] "newid" none true true)
      (Request.mk "POST" none [5000001]) ⟨"u@x", "p1"⟩
      (by decide) (by decide) (by decide) (by decide) (by decide) (by decide)
      (by decide)⟩
